import Mathlib

/-!
Shallow embedding of src/main.py (matrixreborn-importer): a Tkinter app that
bulk-loads a delimited CSV file into a PostgreSQL table through chunked reads
with pandas read_csv(chunksize=CHUNKSIZE) and DataFrame.to_sql(if_exists=append).
-/

namespace MatrixReborn

/-- a parsed data row: the list of its fields, as decoded strings. -/
abbrev Row := List String

/-- constant CHUNKSIZE = 10 ** 5 (src/main.py line 10). -/
def CHUNKSIZE : Nat := 10 ^ 5

/-- constant DELIMITER (src/main.py line 11). -/
def DELIMITER : Char := ';'

/-- the exception kinds the program can raise or observe: ValueError with a
message, FileNotFoundError, a pandas parse error on a malformed row, the
client-side pandas ValueError raised by to_sql only under if_exists=fail when
the table already exists, and any other database-side error. -/
inductive ImpError where
  | valueError : String → ImpError
  | fileNotFound : ImpError
  | parseError : ImpError
  | duplicateTable : ImpError
  | dbError : String → ImpError
deriving DecidableEq, Repr

/-- logging levels used by the program (logging.info / logging.error). -/
inductive LogLevel where
  | info
  | error
deriving DecidableEq, Repr

/-- the database state: table names with their rows, each name at most once. -/
abbrev DB := List (String × List Row)

/-- look a table up by name. -/
def DB.lookup : DB → String → Option (List Row)
  | [], _ => none
  | (n, rs) :: rest, name => if n = name then some rs else DB.lookup rest name

/-- set the contents of a table, creating it when absent. -/
def DB.setTable : DB → String → List Row → DB
  | [], name, rows => [(name, rows)]
  | (n, rs) :: rest, name, rows =>
      if n = name then (name, rows) :: rest else (n, rs) :: DB.setTable rest name rows

/-- remove a table (the SQL DROP TABLE effect). -/
def DB.dropTable : DB → String → DB
  | [], _ => []
  | (n, rs) :: rest, name => if n = name then rest else (n, rs) :: DB.dropTable rest name

/-- the rows a table currently holds ([] when the table is absent). -/
def DB.tableRows (db : DB) (name : String) : List Row :=
  (DB.lookup db name).getD []

/-- the if_exists argument of pandas DataFrame.to_sql. -/
inductive IfExists where
  | fail
  | replace
  | append
deriving DecidableEq, Repr

/-- pandas DataFrame.to_sql(table_name, engine, if_exists, index=False): the
client-side semantics on the table state. Under if_exists=fail a pre-existing
table raises; under append the rows are added after the existing ones; a
missing table is created in every mode. -/
def to_sql (table_name : String) (rows : List Row) (if_exists : IfExists) (db : DB) :
    Except ImpError DB :=
  match DB.lookup db table_name with
  | none => Except.ok (DB.setTable db table_name rows)
  | some old =>
    match if_exists with
    | IfExists.fail => Except.error ImpError.duplicateTable
    | IfExists.replace => Except.ok (DB.setTable db table_name rows)
    | IfExists.append => Except.ok (DB.setTable db table_name (old ++ rows))

/-- the database engine side of a chunk write: the server may reject a batch
(constraint violation, type mismatch, lost connection). The pure table-state
effect of an accepted write is computed by to_sql; the engine only decides
acceptance. -/
structure Engine where
  accepts : List Row → DB → Bool

/-- an engine that accepts every write. -/
def Engine.ok : Engine := ⟨fun _ _ => true⟩

/-- one execution of chunk.to_sql(table_name, self.db.engine, if_exists=append,
index=False) (src/main.py line 83): the engine may reject the batch; an
accepted batch takes the client-side to_sql effect, with if_exists=append
hard-coded as in the source. -/
def writeChunk (eng : Engine) (table_name : String) (chunk : List Row) (db : DB) :
    Except ImpError DB :=
  if eng.accepts chunk db then to_sql table_name chunk IfExists.append db
  else Except.error (ImpError.dbError "Ocorreu um erro inesperado durante a importação dos dados.")

/-- errors pd.read_csv itself can raise while producing a chunk. -/
inductive ReadError where
  | fileNotFound
  | parseError
deriving DecidableEq, Repr

/-- embed a read error into the exception type. -/
def ReadError.toImpError : ReadError → ImpError
  | ReadError.fileNotFound => ImpError.fileNotFound
  | ReadError.parseError => ImpError.parseError

/-- the lazy sequence of outcomes the chunked reader would produce if fully
consumed: each element is either a successfully parsed chunk of rows or the
read error raised at that point. -/
abbrev FileSource := List (Except ReadError (List Row))

/-- the state produced by the for-loop of Importer.import_data. -/
structure LoopResult where
  result : Except ImpError Unit
  db : DB
  total_rows : Nat
  logs : List Nat
deriving Repr

/-- the for-loop of Importer.import_data (src/main.py lines 81-85): consume
the chunk sequence one element at a time; a read error aborts, a rejected
write aborts, an accepted write advances total_rows and logs it. Elements
after an abort are never examined. -/
def importLoop (write : List Row → DB → Except ImpError DB) :
    FileSource → DB → Nat → List Nat → LoopResult
  | [], db, total, logs => ⟨Except.ok (), db, total, logs⟩
  | Except.error e :: _, db, total, logs => ⟨Except.error (ReadError.toImpError e), db, total, logs⟩
  | Except.ok chunk :: rest, db, total, logs =>
      match write chunk db with
      | Except.error e => ⟨Except.error e, db, total, logs⟩
      | Except.ok db2 => importLoop write rest db2 (total + chunk.length) (logs ++ [total + chunk.length])

/-- the observable outcome of Importer.import_data: the Python return value
(None on success, hence Option Nat valued none; an exception otherwise), the
database state, the final value of the internal total_rows counter, the
sequence of logged running totals, and whether the source file was opened. -/
structure ImportResult where
  retval : Except ImpError (Option Nat)
  db : DB
  total_rows : Nat
  logs : List Nat
  openedFile : Bool
deriving Repr

/-- Importer.import_data(table_name) (src/main.py lines 71-91): an empty table
name raises ValueError before the file is touched; otherwise the file is
opened and streamed chunk by chunk through the loop, each chunk written with
if_exists=append. The function body has no return statement, so a successful
call returns None. -/
def import_data (eng : Engine) (file : FileSource) (table_name : String) (db : DB) :
    ImportResult :=
  if table_name = "" then
    ⟨Except.error (ImpError.valueError "O nome da tabela não é válido."), db, 0, [], false⟩
  else
    let r := importLoop (writeChunk eng table_name) file db 0 []
    ⟨r.result.map fun _ => none, r.db, r.total_rows, r.logs, true⟩

/-- the maximal chunking pandas read_csv(chunksize=B) performs: successive
groups of at most B rows, every group except possibly the last of size
exactly B, in file order. -/
def chunksOf (B : Nat) (rows : List Row) : List (List Row) :=
  if h : B = 0 ∨ rows = [] then []
  else rows.take B :: chunksOf B (rows.drop B)
termination_by rows.length
decreasing_by
  push_neg at h
  simp only [List.length_drop]
  exact Nat.sub_lt (List.length_pos.mpr h.2) (Nat.pos_of_ne_zero h.1)

/-- the outcome of Database.drop_table. -/
structure DropResult where
  result : Except ImpError Unit
  db : DB
  logs : List (LogLevel × String)
deriving Repr

/-- Database.drop_table(table_name) (src/main.py lines 43-61): an empty name
is logged at error level and raises ValueError; a present table is dropped
and logged at info level; an absent table raises NoSuchTableError internally,
which is caught and logged at info level, and the call returns normally. -/
def drop_table (table_name : String) (db : DB) : DropResult :=
  if table_name = "" then
    ⟨Except.error (ImpError.valueError "O nome da tabela não é válido."), db,
      [(LogLevel.error, "O nome da tabela não é válido.")]⟩
  else
    match DB.lookup db table_name with
    | some _ =>
        ⟨Except.ok (), DB.dropTable db table_name,
          [(LogLevel.info, "Tabela " ++ table_name ++ " apagada.")]⟩
    | none =>
        ⟨Except.ok (), db,
          [(LogLevel.info, "A tabela " ++ table_name ++ " não existe.")]⟩

/-- the kind of message box the GUI shows (messagebox.showinfo / showerror). -/
inductive MsgKind where
  | infoBox
  | errorBox
deriving DecidableEq, Repr

/-- the observable outcome of App.test_connection: whether a Database object
was constructed, whether a network handshake was attempted (engine.connect),
and the message box shown. -/
structure TestConnResult where
  dbConstructed : Bool
  networkAttempted : Bool
  message : MsgKind × String
deriving DecidableEq, Repr

/-- App.test_connection (src/main.py lines 150-166): if any of the four
credential fields is empty, an error box is shown and the method returns
before constructing a Database, so no network call happens. Otherwise a
Database is built and engine.connect is attempted; handshakeOk is the outcome
of that external handshake and errMsg the text of the exception it raises
when it fails. -/
def test_connection (dbname user password host : String) (handshakeOk : Bool)
    (errMsg : String) : TestConnResult :=
  if dbname = "" ∨ user = "" ∨ password = "" ∨ host = "" then
    ⟨false, false, (MsgKind.errorBox, "Todos os campos devem ser preenchidos.")⟩
  else if handshakeOk then
    ⟨true, true, (MsgKind.infoBox, "Conexão bem-sucedida!")⟩
  else
    ⟨true, true, (MsgKind.errorBox, errMsg)⟩

/-- the message str(e) shown for an exception in the import handler. -/
def ImpError.message : ImpError → String
  | ImpError.valueError m => m
  | ImpError.fileNotFound => "Arquivo não encontrado."
  | ImpError.parseError => "Error tokenizing data."
  | ImpError.duplicateTable => "Table already exists."
  | ImpError.dbError m => m

/-- the externally visible steps App.import_data takes, in order. -/
inductive Action where
  | showedError : String → Action
  | calledDropTable : String → Action
  | ranImport : String → Action
  | showedInfo : String → Action
deriving DecidableEq, Repr

/-- the outcome of the App.import_data button handler. -/
structure AppImportResult where
  actions : List Action
  db : Option DB
  importRun : Option ImportResult
deriving Repr

/-- App.import_data (src/main.py lines 168-183): validates the table name and
the presence of a configured database, then always calls drop_table on the
target table, then runs the importer on the resulting state and reports the
outcome in a message box. -/
def app_import_data (table_name : String) (dbOpt : Option DB) (eng : Engine)
    (file : FileSource) : AppImportResult :=
  if table_name = "" then
    ⟨[Action.showedError "O nome da tabela deve ser preenchido."], dbOpt, none⟩
  else
    match dbOpt with
    | none =>
        ⟨[Action.showedError "O banco de dados não está configurado. Teste a conexão primeiro."],
          none, none⟩
    | some db =>
      let d := drop_table table_name db
      let r := import_data eng file table_name d.db
      match r.retval with
      | Except.ok _ =>
          ⟨[Action.calledDropTable table_name, Action.ranImport table_name,
              Action.showedInfo "Importação bem-sucedida!"], some r.db, some r⟩
      | Except.error e =>
          ⟨[Action.calledDropTable table_name, Action.ranImport table_name,
              Action.showedError e.message], some r.db, some r⟩

/-- the column types pandas can associate to a CSV column. -/
inductive ColType where
  | integer
  | floating
  | text
deriving DecidableEq, Repr

/-- whether a raw field parses as an integer literal. -/
def isIntString (s : String) : Bool :=
  decide (s ≠ "") && s.data.all Char.isDigit

/-- whether a raw field parses as a numeric (integer or decimal) literal. -/
def isFloatString (s : String) : Bool :=
  decide (s ≠ "") && s.data.all fun c => c.isDigit || decide (c = '.')

/-- pandas type inference for one column from its raw field strings: all
integer literals give an integer column, all numeric literals a floating
column, anything else a text column. -/
def inferColType (vals : List String) : ColType :=
  if vals.all isIntString then ColType.integer
  else if vals.all isFloatString then ColType.floating
  else ColType.text

/-- the dtype argument of the read_csv call (src/main.py line 82): position 13
mapped to str, every other position unmapped. -/
def read_csv_dtype (i : Nat) : Option ColType :=
  if i = 13 then some ColType.text else none

/-- the type pandas gives column i of a chunk: an explicit dtype entry
overrides inference, every other column keeps its inferred type. -/
def read_csv_colType (vals : List String) (i : Nat) : ColType :=
  match read_csv_dtype i with
  | some t => t
  | none => inferColType vals

/-- Modelled from the spec: the phone-number cleaner present in another
variant of this repository (absent from src/main.py) strips all non-digit
characters from a value in a designated column. -/
def clean_phone (s : String) : String :=
  String.mk (s.data.filter fun c => c.isDigit)

lemma DB.lookup_setTable (db : DB) (name : String) (rows : List Row) :
    DB.lookup (DB.setTable db name rows) name = some rows := by
  induction db with
  | nil => simp [DB.setTable, DB.lookup]
  | cons p rest ih =>
    obtain ⟨n, rs⟩ := p
    by_cases h : n = name
    · simp [DB.setTable, DB.lookup, h]
    · simp [DB.setTable, DB.lookup, h, ih]

lemma DB.tableRows_setTable (db : DB) (name : String) (rows : List Row) :
    DB.tableRows (DB.setTable db name rows) name = rows := by
  simp [DB.tableRows, DB.lookup_setTable]

lemma to_sql_append (name : String) (rows : List Row) (db : DB) :
    to_sql name rows IfExists.append db
      = Except.ok (DB.setTable db name (DB.tableRows db name ++ rows)) := by
  unfold to_sql DB.tableRows
  cases h : DB.lookup db name with
  | none => simp [h]
  | some old => simp [h]

lemma writeChunk_engineOk (name : String) (chunk : List Row) (db : DB) :
    writeChunk Engine.ok name chunk db
      = Except.ok (DB.setTable db name (DB.tableRows db name ++ chunk)) := by
  simp [writeChunk, Engine.ok, to_sql_append]

lemma writeChunk_ok_eq (eng : Engine) (name : String) (chunk : List Row) (db db2 : DB)
    (h : writeChunk eng name chunk db = Except.ok db2) :
    db2 = DB.setTable db name (DB.tableRows db name ++ chunk) := by
  unfold writeChunk at h
  by_cases hacc : eng.accepts chunk db
  · rw [if_pos hacc, to_sql_append] at h
    exact (Except.ok.inj h).symm
  · rw [if_neg hacc] at h
    exact absurd h (by simp)

lemma writeChunk_error_dbError (eng : Engine) (name : String) (chunk : List Row) (db : DB)
    (e : ImpError) (h : writeChunk eng name chunk db = Except.error e) :
    ∃ m, e = ImpError.dbError m := by
  unfold writeChunk at h
  by_cases hacc : eng.accepts chunk db
  · rw [if_pos hacc, to_sql_append] at h
    exact absurd h (by simp)
  · rw [if_neg hacc] at h
    exact ⟨_, (Except.error.inj h).symm⟩

lemma chunksOf_nil (B : Nat) : chunksOf B [] = [] := by
  rw [chunksOf]
  simp

lemma chunksOf_cons (B : Nat) (rows : List Row) (hB : B ≠ 0) (hr : rows ≠ []) :
    chunksOf B rows = rows.take B :: chunksOf B (rows.drop B) := by
  rw [chunksOf]
  simp [hB, hr]

lemma chunksOf_flatten_aux (B : Nat) (hB : B ≠ 0) :
    ∀ n rows, List.length rows ≤ n → (chunksOf B rows).flatten = rows := by
  intro n
  induction n with
  | zero =>
    intro rows h
    have : rows = [] := List.eq_nil_of_length_eq_zero (Nat.le_zero.mp h)
    rw [this, chunksOf_nil]
    rfl
  | succ n ih =>
    intro rows h
    by_cases hr : rows = []
    · rw [hr, chunksOf_nil]
      rfl
    · rw [chunksOf_cons B rows hB hr, List.flatten_cons]
      rw [ih (rows.drop B) (by
        simp only [List.length_drop]
        have hpos : 0 < rows.length := List.length_pos.mpr hr
        omega)]
      exact List.take_append_drop B rows

/-- the chunks concatenate back to the whole file, in order. -/
lemma chunksOf_flatten (B : Nat) (hB : B ≠ 0) (rows : List Row) :
    (chunksOf B rows).flatten = rows :=
  chunksOf_flatten_aux B hB rows.length rows (Nat.le_refl _)

lemma chunksOf_length_aux (B : Nat) (hB : B ≠ 0) :
    ∀ n rows, List.length rows ≤ n →
      (chunksOf B rows).length = (List.length rows + B - 1) / B := by
  intro n
  induction n with
  | zero =>
    intro rows h
    have h0 : rows = [] := List.eq_nil_of_length_eq_zero (Nat.le_zero.mp h)
    rw [h0, chunksOf_nil]
    simp only [List.length_nil, Nat.zero_add]
    exact (Nat.div_eq_of_lt (by omega)).symm
  | succ n ih =>
    intro rows h
    by_cases hr : rows = []
    · rw [hr, chunksOf_nil]
      simp only [List.length_nil, Nat.zero_add]
      exact (Nat.div_eq_of_lt (by omega)).symm
    · have hpos : 0 < rows.length := List.length_pos.mpr hr
      rw [chunksOf_cons B rows hB hr]
      rw [List.length_cons]
      rw [ih (rows.drop B) (by simp only [List.length_drop]; omega)]
      simp only [List.length_drop]
      set N := rows.length with hN
      have hB1 : 1 ≤ B := Nat.one_le_iff_ne_zero.mpr hB
      by_cases hle : N ≤ B
      · have h1 : N - B = 0 := by omega
        rw [h1]
        have h2 : (0 + B - 1) / B = 0 := Nat.div_eq_of_lt (by omega)
        rw [h2]
        have h3 : N + B - 1 = (N - 1) + B := by omega
        rw [h3, Nat.add_div_right _ (by omega), Nat.div_eq_of_lt (by omega)]
      · have h3 : N - B + B - 1 = (N - B - 1) + B := by omega
        have h4 : N + B - 1 = ((N - B - 1) + B) + B := by omega
        rw [h3, h4, Nat.add_div_right _ (by omega), Nat.add_div_right _ (by omega),
          Nat.add_div_right _ (by omega)]

/-- the number of chunks is the ceiling of N / B. -/
lemma chunksOf_length (B : Nat) (hB : B ≠ 0) (rows : List Row) :
    (chunksOf B rows).length = (List.length rows + B - 1) / B :=
  chunksOf_length_aux B hB rows.length rows (Nat.le_refl _)

lemma importLoop_nil (write : List Row → DB → Except ImpError DB) (db : DB) (total : Nat)
    (logs : List Nat) :
    importLoop write [] db total logs = ⟨Except.ok (), db, total, logs⟩ := rfl

lemma importLoop_read_error (write : List Row → DB → Except ImpError DB) (e : ReadError)
    (rest : FileSource) (db : DB) (total : Nat) (logs : List Nat) :
    importLoop write (Except.error e :: rest) db total logs
      = ⟨Except.error (ReadError.toImpError e), db, total, logs⟩ := rfl

lemma importLoop_step_ok (write : List Row → DB → Except ImpError DB) (c : List Row)
    (rest : FileSource) (db db2 : DB) (total : Nat) (logs : List Nat)
    (h : write c db = Except.ok db2) :
    importLoop write (Except.ok c :: rest) db total logs
      = importLoop write rest db2 (total + c.length) (logs ++ [total + c.length]) := by
  simp only [importLoop]
  rw [h]

lemma importLoop_step_error (write : List Row → DB → Except ImpError DB) (c : List Row)
    (rest : FileSource) (db : DB) (total : Nat) (logs : List Nat) (e : ImpError)
    (h : write c db = Except.error e) :
    importLoop write (Except.ok c :: rest) db total logs
      = ⟨Except.error e, db, total, logs⟩ := by
  simp only [importLoop]
  rw [h]

/-- the loop over an all-parsed file with an engine that accepts every write:
it succeeds, the target table receives every chunk in order, the counter
advances by the total row count, and each chunk write logs once. -/
lemma importLoop_ok_spec (name : String) :
    ∀ (chunks : List (List Row)) (db : DB) (total : Nat) (logs : List Nat),
      (importLoop (writeChunk Engine.ok name) (chunks.map Except.ok) db total logs).result
          = Except.ok ()
      ∧ DB.tableRows
            (importLoop (writeChunk Engine.ok name) (chunks.map Except.ok) db total logs).db name
          = DB.tableRows db name ++ chunks.flatten
      ∧ (importLoop (writeChunk Engine.ok name) (chunks.map Except.ok) db total logs).total_rows
          = total + chunks.flatten.length
      ∧ (importLoop (writeChunk Engine.ok name) (chunks.map Except.ok) db total logs).logs.length
          = logs.length + chunks.length := by
  intro chunks
  induction chunks with
  | nil =>
    intro db total logs
    simp [importLoop_nil]
  | cons c cs ih =>
    intro db total logs
    rw [List.map_cons,
      importLoop_step_ok (writeChunk Engine.ok name) c (cs.map Except.ok) db
        (DB.setTable db name (DB.tableRows db name ++ c)) total logs
        (writeChunk_engineOk name c db)]
    obtain ⟨h1, h2, h3, h4⟩ :=
      ih (DB.setTable db name (DB.tableRows db name ++ c)) (total + c.length)
        (logs ++ [total + c.length])
    refine ⟨h1, ?_, ?_, ?_⟩
    · rw [h2, DB.tableRows_setTable, List.flatten_cons, List.append_assoc]
    · rw [h3, List.flatten_cons, List.length_append]
      omega
    · rw [h4, List.length_append, List.length_cons]
      simp only [List.length_cons, List.length_nil]
      omega

/-- when the loop consumes a prefix successfully, running it on the prefix
followed by more input continues from the state the prefix produced. -/
lemma importLoop_append_ok (write : List Row → DB → Except ImpError DB) :
    ∀ (xs ys : FileSource) (db : DB) (total : Nat) (logs : List Nat),
      (importLoop write xs db total logs).result = Except.ok () →
      importLoop write (xs ++ ys) db total logs
        = importLoop write ys (importLoop write xs db total logs).db
            (importLoop write xs db total logs).total_rows
            (importLoop write xs db total logs).logs := by
  intro xs
  induction xs with
  | nil =>
    intro ys db total logs _
    simp [importLoop_nil]
  | cons x xs ih =>
    intro ys db total logs h
    cases x with
    | error e =>
      rw [importLoop_read_error] at h
      exact absurd h (by simp)
    | ok c =>
      cases hw : write c db with
      | error e =>
        rw [importLoop_step_error write c xs db total logs e hw] at h
        exact absurd h (by simp)
      | ok db2 =>
        rw [List.cons_append,
          importLoop_step_ok write c (xs ++ ys) db db2 total logs hw,
          importLoop_step_ok write c xs db db2 total logs hw] at *
        exact ih ys db2 (total + c.length) (logs ++ [total + c.length]) h

/-- a successful run of the loop over parsed chunks, with any engine, leaves
the target table holding its previous rows followed by every chunk in order. -/
lemma importLoop_ok_committed (eng : Engine) (name : String) :
    ∀ (chunks : List (List Row)) (db : DB) (total : Nat) (logs : List Nat),
      (importLoop (writeChunk eng name) (chunks.map Except.ok) db total logs).result
          = Except.ok () →
      DB.tableRows
          (importLoop (writeChunk eng name) (chunks.map Except.ok) db total logs).db name
        = DB.tableRows db name ++ chunks.flatten := by
  intro chunks
  induction chunks with
  | nil =>
    intro db total logs _
    simp [importLoop_nil]
  | cons c cs ih =>
    intro db total logs h
    cases hw : writeChunk eng name c db with
    | error e =>
      rw [List.map_cons, importLoop_step_error (writeChunk eng name) c _ db total logs e hw] at h
      exact absurd h (by simp)
    | ok db2 =>
      have hdb2 := writeChunk_ok_eq eng name c db db2 hw
      rw [List.map_cons, importLoop_step_ok (writeChunk eng name) c _ db db2 total logs hw] at h ⊢
      rw [ih db2 (total + c.length) (logs ++ [total + c.length]) h, hdb2,
        DB.tableRows_setTable, List.flatten_cons, List.append_assoc]

/-- the loop never raises the duplicate-table error: every write uses
if_exists=append, and read errors are file errors. -/
lemma importLoop_no_duplicateTable (eng : Engine) (name : String) :
    ∀ (file : FileSource) (db : DB) (total : Nat) (logs : List Nat),
      (importLoop (writeChunk eng name) file db total logs).result
        ≠ Except.error ImpError.duplicateTable := by
  intro file
  induction file with
  | nil =>
    intro db total logs
    simp [importLoop_nil]
  | cons x xs ih =>
    intro db total logs
    cases x with
    | error e =>
      rw [importLoop_read_error]
      cases e <;> simp [ReadError.toImpError]
    | ok c =>
      cases hw : writeChunk eng name c db with
      | error e =>
        rw [importLoop_step_error (writeChunk eng name) c xs db total logs e hw]
        obtain ⟨m, hm⟩ := writeChunk_error_dbError eng name c db e hw
        simp [hm]
      | ok db2 =>
        rw [importLoop_step_ok (writeChunk eng name) c xs db db2 total logs hw]
        exact ih db2 (total + c.length) (logs ++ [total + c.length])

/-- C4: Database.drop_table on a non-empty name that names no existing table
returns successfully without raising, leaves the database unchanged, and logs
the condition at informational level only, never at error level. -/
theorem C4_drop_missing_table_succeeds (name : String) (db : DB)
    (hname : ¬ name = "") (habs : DB.lookup db name = none) :
    (drop_table name db).result = Except.ok ()
    ∧ (drop_table name db).db = db
    ∧ (drop_table name db).logs = [(LogLevel.info, "A tabela " ++ name ++ " não existe.")]
    ∧ ∀ p ∈ (drop_table name db).logs, p.1 = LogLevel.info := by
  unfold drop_table
  rw [if_neg hname, habs]
  refine ⟨rfl, rfl, rfl, ?_⟩
  intro p hp
  simp only [List.mem_singleton] at hp
  rw [hp]

theorem C4_drop_missing_table_succeeds_witness :
    (¬ "t" = "") ∧ DB.lookup [] "t" = none
    ∧ ((drop_table "t" []).result = Except.ok ()
        ∧ (drop_table "t" []).db = []
        ∧ (drop_table "t" []).logs = [(LogLevel.info, "A tabela " ++ "t" ++ " não existe.")]
        ∧ ∀ p ∈ (drop_table "t" []).logs, p.1 = LogLevel.info) :=
  ⟨by decide, rfl, C4_drop_missing_table_succeeds "t" [] (by decide) rfl⟩

/-- C5: Importer.import_data with an empty table name raises ValueError
before any file I/O: the source file is never opened, the database is
untouched, and the outcome is identical whatever the file holds. -/
theorem C5_empty_table_name_fails_before_io (eng : Engine) (db : DB) (file file2 : FileSource) :
    (import_data eng file "" db).retval
        = Except.error (ImpError.valueError "O nome da tabela não é válido.")
    ∧ (import_data eng file "" db).openedFile = false
    ∧ (import_data eng file "" db).db = db
    ∧ import_data eng file "" db = import_data eng file2 "" db := by
  refine ⟨?_, ?_, ?_, ?_⟩ <;> simp [import_data]

/-- C6: App.test_connection with any of the four credential fields empty
shows a validation error and returns before constructing a Database, so no
network handshake is attempted. -/
theorem C6_empty_credential_no_network (dbname user password host : String)
    (handshakeOk : Bool) (errMsg : String)
    (h : dbname = "" ∨ user = "" ∨ password = "" ∨ host = "") :
    (test_connection dbname user password host handshakeOk errMsg).networkAttempted = false
    ∧ (test_connection dbname user password host handshakeOk errMsg).dbConstructed = false
    ∧ (test_connection dbname user password host handshakeOk errMsg).message
        = (MsgKind.errorBox, "Todos os campos devem ser preenchidos.") := by
  unfold test_connection
  rw [if_pos h]
  exact ⟨rfl, rfl, rfl⟩

theorem C6_empty_credential_no_network_witness :
    ((("" : String) = "" ∨ ("u" : String) = "" ∨ ("p" : String) = "" ∨ ("h" : String) = ""))
    ∧ ((test_connection "" "u" "p" "h" true "boom").networkAttempted = false
        ∧ (test_connection "" "u" "p" "h" true "boom").dbConstructed = false
        ∧ (test_connection "" "u" "p" "h" true "boom").message
            = (MsgKind.errorBox, "Todos os campos devem ser preenchidos.")) :=
  ⟨Or.inl rfl, C6_empty_credential_no_network "" "u" "p" "h" true "boom" (Or.inl rfl)⟩

/-- C8: the read_csv call decodes the column at position 13 as text whatever
inference would give, and every other column keeps its inferred type. -/
theorem C8_column13_forced_text (vals : List String) :
    read_csv_colType vals 13 = ColType.text
    ∧ ∀ i : Nat, ¬ i = 13 → read_csv_colType vals i = inferColType vals := by
  constructor
  · rfl
  · intro i hi
    unfold read_csv_colType read_csv_dtype
    rw [if_neg hi]

theorem C8_column13_forced_text_witness :
    read_csv_colType ["123"] 13 = ColType.text
    ∧ (¬ (0 : Nat) = 13)
    ∧ read_csv_colType ["123"] 0 = inferColType ["123"]
    ∧ inferColType ["123"] = ColType.integer :=
  ⟨(C8_column13_forced_text ["123"]).1, by decide,
    (C8_column13_forced_text ["123"]).2 0 (by decide), by decide⟩

/-- C9: the phone-number cleaner maps "(11) 98765-4321" to "11987654321",
and in general keeps exactly the digit characters of its input, in order. -/
theorem C9_clean_phone_strips_non_digits :
    clean_phone "(11) 98765-4321" = "11987654321"
    ∧ ∀ s : String, (clean_phone s).data = s.data.filter (fun c => c.isDigit)
      ∧ ∀ c ∈ (clean_phone s).data, c.isDigit := by
  refine ⟨by decide, fun s => ⟨rfl, ?_⟩⟩
  intro c hc
  have hc2 : c ∈ s.data.filter (fun c => c.isDigit) := hc
  exact (List.mem_filter.mp hc2).2

theorem C9_clean_phone_strips_non_digits_witness :
    clean_phone "(11) 98765-4321" = "11987654321"
    ∧ (clean_phone "(11) 98765-4321").data
        = ("(11) 98765-4321" : String).data.filter (fun c => c.isDigit)
    ∧ Char.isDigit '1' :=
  ⟨C9_clean_phone_strips_non_digits.1,
    (C9_clean_phone_strips_non_digits.2 "(11) 98765-4321").1,
    (C9_clean_phone_strips_non_digits.2 "(11) 98765-4321").2 '1' (by decide)⟩

/-- C1: for a readable delimited file of N rows read with batch size
CHUNKSIZE = 100000, a successful Importer.import_data run writes exactly N
rows to the target table, in exactly ceil(N / CHUNKSIZE) batch writes, and
the rows arrive in file order. -/
theorem C1_import_writes_all_rows_in_order (name : String) (rows : List Row) (db : DB)
    (hname : ¬ name = "") :
    (import_data Engine.ok ((chunksOf CHUNKSIZE rows).map Except.ok) name db).retval
        = Except.ok none
    ∧ DB.tableRows
          (import_data Engine.ok ((chunksOf CHUNKSIZE rows).map Except.ok) name db).db name
        = DB.tableRows db name ++ rows
    ∧ (import_data Engine.ok ((chunksOf CHUNKSIZE rows).map Except.ok) name db).total_rows
        = rows.length
    ∧ (import_data Engine.ok ((chunksOf CHUNKSIZE rows).map Except.ok) name db).logs.length
        = (rows.length + CHUNKSIZE - 1) / CHUNKSIZE := by
  have hB : CHUNKSIZE ≠ 0 := by decide
  obtain ⟨h1, h2, h3, h4⟩ := importLoop_ok_spec name (chunksOf CHUNKSIZE rows) db 0 []
  unfold import_data
  rw [if_neg hname]
  dsimp only
  refine ⟨?_, ?_, ?_, ?_⟩
  · rw [h1]
    rfl
  · rw [h2, chunksOf_flatten CHUNKSIZE hB rows]
  · rw [h3, chunksOf_flatten CHUNKSIZE hB rows, Nat.zero_add]
  · rw [h4, chunksOf_length CHUNKSIZE hB rows, List.length_nil, Nat.zero_add]

theorem C1_import_writes_all_rows_in_order_witness :
    (¬ "t" = "")
    ∧ ((import_data Engine.ok ((chunksOf CHUNKSIZE [["a"], ["b"]]).map Except.ok) "t" []).retval
          = Except.ok none
        ∧ DB.tableRows
              (import_data Engine.ok ((chunksOf CHUNKSIZE [["a"], ["b"]]).map Except.ok)
                "t" []).db "t"
            = DB.tableRows [] "t" ++ [["a"], ["b"]]
        ∧ (import_data Engine.ok ((chunksOf CHUNKSIZE [["a"], ["b"]]).map Except.ok)
              "t" []).total_rows = List.length [["a"], ["b"]]
        ∧ (import_data Engine.ok ((chunksOf CHUNKSIZE [["a"], ["b"]]).map Except.ok)
              "t" []).logs.length
            = (List.length [["a"], ["b"]] + CHUNKSIZE - 1) / CHUNKSIZE) :=
  ⟨by decide, C1_import_writes_all_rows_in_order "t" [["a"], ["b"]] [] (by decide)⟩

/-- C3 as stated is false: a successful run of Importer.import_data returns
None (the function body has no return statement), not total_rows. Here a
2-row import succeeds with total_rows = 2 yet returns the value none. -/
theorem C3_counterexample_returns_none :
    (import_data Engine.ok [Except.ok [["a"], ["b"]]] "t" []).retval = Except.ok none
    ∧ (import_data Engine.ok [Except.ok [["a"], ["b"]]] "t" []).total_rows = 2
    ∧ (Except.ok (none : Option Nat) : Except ImpError (Option Nat)) ≠ Except.ok (some 2) := by
  refine ⟨rfl, rfl, ?_⟩
  intro h
  exact Option.noConfusion (Except.ok.inj h)

/-- C3 amended: a successful Importer.import_data call accumulates the
number of rows written in its internal total_rows counter and logs it after
each batch, but its return value is None; the total is not returned to the
caller. -/
theorem C3_amended_total_counted_not_returned (name : String) (rows : List Row) (db : DB)
    (hname : ¬ name = "") :
    (import_data Engine.ok ((chunksOf CHUNKSIZE rows).map Except.ok) name db).retval
        = Except.ok none
    ∧ (import_data Engine.ok ((chunksOf CHUNKSIZE rows).map Except.ok) name db).total_rows
        = rows.length := by
  have hB : CHUNKSIZE ≠ 0 := by decide
  obtain ⟨h1, _, h3, _⟩ := importLoop_ok_spec name (chunksOf CHUNKSIZE rows) db 0 []
  unfold import_data
  rw [if_neg hname]
  dsimp only
  refine ⟨?_, ?_⟩
  · rw [h1]
    rfl
  · rw [h3, chunksOf_flatten CHUNKSIZE hB rows, Nat.zero_add]

theorem C3_amended_total_counted_not_returned_witness :
    (¬ "t" = "")
    ∧ ((import_data Engine.ok ((chunksOf CHUNKSIZE [["a"], ["b"]]).map Except.ok) "t" []).retval
          = Except.ok none
        ∧ (import_data Engine.ok ((chunksOf CHUNKSIZE [["a"], ["b"]]).map Except.ok)
              "t" []).total_rows = List.length [["a"], ["b"]]) :=
  ⟨by decide, C3_amended_total_counted_not_returned "t" [["a"], ["b"]] [] (by decide)⟩

/-- C10: Importer.import_data never raises the duplicate-table error, because
every chunk write passes if_exists=append; importing into a database that
already holds the target table with rows old appends the file rows after
old. -/
theorem C10_append_never_duplicate_error :
    (∀ (eng : Engine) (file : FileSource) (name : String) (db : DB),
        (import_data eng file name db).retval ≠ Except.error ImpError.duplicateTable)
    ∧ ∀ (name : String) (db : DB) (old : List Row) (chunks : List (List Row)),
        ¬ name = "" → DB.lookup db name = some old →
        (import_data Engine.ok (chunks.map Except.ok) name db).retval = Except.ok none
        ∧ DB.tableRows (import_data Engine.ok (chunks.map Except.ok) name db).db name
            = old ++ chunks.flatten := by
  constructor
  · intro eng file name db
    unfold import_data
    by_cases hname : name = ""
    · rw [if_pos hname]
      simp
    · rw [if_neg hname]
      dsimp only
      intro h
      have hres := importLoop_no_duplicateTable eng name file db 0 []
      cases hr : (importLoop (writeChunk eng name) file db 0 []).result with
      | ok u => rw [hr] at h; exact Except.noConfusion (h : Except.ok _ = _)
      | error e =>
        rw [hr] at h
        have : e = ImpError.duplicateTable := Except.error.inj h
        rw [hr, this] at hres
        exact hres rfl
  · intro name db old chunks hname hold
    obtain ⟨h1, h2, _, _⟩ := importLoop_ok_spec name chunks db 0 []
    unfold import_data
    rw [if_neg hname]
    dsimp only
    refine ⟨?_, ?_⟩
    · rw [h1]
      rfl
    · rw [h2]
      unfold DB.tableRows
      rw [hold]
      rfl

theorem C10_append_never_duplicate_error_witness :
    ((import_data Engine.ok [Except.ok [["y"]]] "t" [("t", [["x"]])]).retval
        ≠ Except.error ImpError.duplicateTable)
    ∧ (¬ "t" = "")
    ∧ DB.lookup [("t", [["x"]])] "t" = some [["x"]]
    ∧ ((import_data Engine.ok ([[["y"]]].map Except.ok) "t" [("t", [["x"]])]).retval
          = Except.ok none
        ∧ DB.tableRows
              (import_data Engine.ok ([[["y"]]].map Except.ok) "t" [("t", [["x"]])]).db "t"
            = [["x"]] ++ [[["y"]]].flatten) :=
  ⟨C10_append_never_duplicate_error.1 Engine.ok [Except.ok [["y"]]] "t" [("t", [["x"]])],
    by decide, rfl,
    C10_append_never_duplicate_error.2 "t" [("t", [["x"]])] [["x"]] [[["y"]]]
      (by decide) rfl⟩

/-- C2: when the first K batches of the file are read and written
successfully and the next batch read or write raises, Importer.import_data
aborts at once: the error propagates, the database keeps exactly the rows of
the first K batches (no rollback), the counter and logs stop at the K-th
batch, and the outcome is identical for every continuation of the file after
the failing element, so no later batch is ever read or written. -/
theorem C2_abort_keeps_committed_batches (eng : Engine) (name : String) (db : DB)
    (chunks : List (List Row)) (bad : Except ReadError (List Row)) (e : ImpError)
    (hname : ¬ name = "")
    (hgood : (importLoop (writeChunk eng name) (chunks.map Except.ok) db 0 []).result
        = Except.ok ())
    (hbad : (∃ re, bad = Except.error re ∧ ReadError.toImpError re = e)
        ∨ (∃ c, bad = Except.ok c
            ∧ writeChunk eng name c
                (importLoop (writeChunk eng name) (chunks.map Except.ok) db 0 []).db
              = Except.error e)) :
    ∀ tail : FileSource,
      (import_data eng (chunks.map Except.ok ++ bad :: tail) name db).retval = Except.error e
      ∧ (import_data eng (chunks.map Except.ok ++ bad :: tail) name db).db
          = (importLoop (writeChunk eng name) (chunks.map Except.ok) db 0 []).db
      ∧ (import_data eng (chunks.map Except.ok ++ bad :: tail) name db).total_rows
          = (importLoop (writeChunk eng name) (chunks.map Except.ok) db 0 []).total_rows
      ∧ (import_data eng (chunks.map Except.ok ++ bad :: tail) name db).logs
          = (importLoop (writeChunk eng name) (chunks.map Except.ok) db 0 []).logs
      ∧ DB.tableRows (importLoop (writeChunk eng name) (chunks.map Except.ok) db 0 []).db name
          = DB.tableRows db name ++ chunks.flatten := by
  intro tail
  have hcommit := importLoop_ok_committed eng name chunks db 0 [] hgood
  have happ := importLoop_append_ok (writeChunk eng name) (chunks.map Except.ok)
    (bad :: tail) db 0 [] hgood
  unfold import_data
  rw [if_neg hname]
  dsimp only
  rw [happ]
  cases hbad with
  | inl h =>
    obtain ⟨re, hb, he⟩ := h
    rw [hb, importLoop_read_error, he]
    exact ⟨rfl, rfl, rfl, rfl, hcommit⟩
  | inr h =>
    obtain ⟨c, hb, hw⟩ := h
    rw [hb, importLoop_step_error _ c tail _ _ _ e hw]
    exact ⟨rfl, rfl, rfl, rfl, hcommit⟩

theorem C2_abort_keeps_committed_batches_witness :
    ((importLoop (writeChunk Engine.ok "t") ([[["a"]]].map Except.ok) [] 0 []).result
        = Except.ok ())
    ∧ ((import_data Engine.ok
            ([[["a"]]].map Except.ok ++ Except.error ReadError.parseError :: [Except.ok [["z"]]])
            "t" []).retval = Except.error ImpError.parseError
        ∧ (import_data Engine.ok
              ([[["a"]]].map Except.ok ++ Except.error ReadError.parseError :: [Except.ok [["z"]]])
              "t" []).db
            = (importLoop (writeChunk Engine.ok "t") ([[["a"]]].map Except.ok) [] 0 []).db
        ∧ (import_data Engine.ok
              ([[["a"]]].map Except.ok ++ Except.error ReadError.parseError :: [Except.ok [["z"]]])
              "t" []).total_rows
            = (importLoop (writeChunk Engine.ok "t") ([[["a"]]].map Except.ok) [] 0 []).total_rows
        ∧ (import_data Engine.ok
              ([[["a"]]].map Except.ok ++ Except.error ReadError.parseError :: [Except.ok [["z"]]])
              "t" []).logs
            = (importLoop (writeChunk Engine.ok "t") ([[["a"]]].map Except.ok) [] 0 []).logs
        ∧ DB.tableRows
              (importLoop (writeChunk Engine.ok "t") ([[["a"]]].map Except.ok) [] 0 []).db "t"
            = DB.tableRows [] "t" ++ [[["a"]]].flatten) :=
  ⟨rfl,
    C2_abort_keeps_committed_batches Engine.ok "t" [] [[["a"]]]
      (Except.error ReadError.parseError) ImpError.parseError (by decide) rfl
      (Or.inl ⟨ReadError.parseError, rfl, rfl⟩) [Except.ok [["z"]]]⟩

/-- C7 as stated is false for this variant: App.import_data drops the target
table unconditionally before importing. With a pre-existing table t holding
one row, a valid import action removes that row and loads only the file
rows: the import could not proceed without the drop. -/
theorem C7_counterexample_drop_always_happens :
    (app_import_data "t" (some [("t", [["old"]])]) Engine.ok [Except.ok [["new"]]]).actions
        = [Action.calledDropTable "t", Action.ranImport "t",
            Action.showedInfo "Importação bem-sucedida!"]
    ∧ (app_import_data "t" (some [("t", [["old"]])]) Engine.ok [Except.ok [["new"]]]).db
        = some [("t", [["new"]])] :=
  ⟨rfl, rfl⟩

/-- C7 amended: in this variant the pre-import drop is unconditional, not
optional: every import action with a non-empty table name and a configured
database first calls drop_table on the target table, and the importer then
runs on the post-drop database state. -/
theorem C7_amended_drop_unconditional (name : String) (db : DB) (eng : Engine)
    (file : FileSource) (hname : ¬ name = "") :
    Action.calledDropTable name ∈ (app_import_data name (some db) eng file).actions
    ∧ (app_import_data name (some db) eng file).importRun
        = some (import_data eng file name (drop_table name db).db) := by
  unfold app_import_data
  rw [if_neg hname]
  dsimp only
  cases hr : (import_data eng file name (drop_table name db).db).retval with
  | ok v =>
    exact ⟨List.mem_cons_self _ _, rfl⟩
  | error e =>
    exact ⟨List.mem_cons_self _ _, rfl⟩

theorem C7_amended_drop_unconditional_witness :
    (¬ "t" = "")
    ∧ (Action.calledDropTable "t"
          ∈ (app_import_data "t" (some [("t", [["old"]])]) Engine.ok
              [Except.ok [["new"]]]).actions
        ∧ (app_import_data "t" (some [("t", [["old"]])]) Engine.ok
              [Except.ok [["new"]]]).importRun
            = some (import_data Engine.ok [Except.ok [["new"]]] "t"
                (drop_table "t" [("t", [["old"]])]).db)) :=
  ⟨by decide,
    C7_amended_drop_unconditional "t" [("t", [["old"]])] Engine.ok [Except.ok [["new"]]]
      (by decide)⟩

end MatrixReborn

